import Mathlib

/-!
Verification of the depthimage_to_pointcloud2 conversion core.

Shallow embedding of:
  * `include/depthimage_to_pointcloud2/depth_conversions.hpp` — the
    templated `convert` loop (decimation, validity/range policy,
    back-projection, colour packing);
  * `src/depthimage_to_pointcloud2_node.cpp` — the `depthCb` dispatch on
    the depth image encoding and the node state it reads.

Modelling conventions:
  * IEEE floats/doubles are modelled exactly over ℚ extended with a
    quiet-NaN element (`F32.nan`).  All numeric claims below are about
    exactly representable values and branch structure, where rational
    arithmetic agrees with IEEE arithmetic; division by zero is the one
    place the model differs (it yields `F32.fin 0` where IEEE yields an
    infinity) and no claim below exercises it.
  * The `rgb` output field of a point carries a raw 32-bit pattern, not a
    number: it is modelled by `RgbBits` (`qnan` for the quiet-NaN fill of a
    bad point, `pat n` for the bit pattern of the packed integer `n`).
  * Buffers are modelled as total functions from flat sample index
    (depth) or from (row, column, channel) (colour, `Fin 256` for uchar).
-/

namespace depthimage_to_pointcloud2

/-- A 32-bit float value: `nan` is a quiet NaN, `fin q` a finite value. -/
inductive F32 : Type where
  | nan : F32
  | fin (q : ℚ) : F32
deriving DecidableEq

/-- IEEE `isnan` test. -/
def F32.isNan : F32 → Bool
  | .nan => true
  | .fin _ => false

/-- Float subtraction; any NaN operand propagates. -/
def F32.sub : F32 → F32 → F32
  | .fin a, .fin b => .fin (a - b)
  | _, _ => .nan

/-- Float multiplication; any NaN operand propagates. -/
def F32.mul : F32 → F32 → F32
  | .fin a, .fin b => .fin (a * b)
  | _, _ => .nan

/-- Float division; any NaN operand propagates.  (On a zero divisor the
model yields `fin 0` where IEEE yields an infinity; no claim exercises
that case.) -/
def F32.div : F32 → F32 → F32
  | .fin a, .fin b => .fin (a / b)
  | _, _ => .nan

/-- Float `>` comparison: false whenever either operand is NaN. -/
def F32.gt : F32 → F32 → Bool
  | .fin a, .fin b => decide (b < a)
  | _, _ => false

/-- The 32-bit pattern held by the float-typed `rgb` output field:
the quiet-NaN fill of a bad point, or the bit pattern of the packed
colour integer (`*iter_rgb = *reinterpret_cast<float*>(&rgb)`). -/
inductive RgbBits : Type where
  | qnan : RgbBits
  | pat (n : Nat) : RgbBits
deriving DecidableEq

/-- One output record written through the four `PointCloud2Iterator`
cursors `iter_x, iter_y, iter_z, iter_rgb`. -/
structure PointRecord : Type where
  x : F32
  y : F32
  z : F32
  rgb : RgbBits
deriving DecidableEq

/-- The depth-unit abstraction used by the templated `convert`.
`depth_traits.hpp` itself ships the concrete instantiations; the loop
only needs these members (`toMeters`, `fromMeters`, `valid`, the value
`T(1)` used for `unit_scaling`, the implicit conversion of a sample to
float used in the X/Y products, and the `>` comparison on samples). -/
structure DepthTraits (T : Type) : Type where
  toMeters : T → F32
  fromMeters : ℚ → T
  valid : T → Bool
  one : T
  toF : T → F32
  gt : T → T → Bool

/-- Modelled from the spec: `depth_traits.hpp` is not under `src/`, so the
16-bit unsigned fixed-point instantiation follows §4.1 of the spec: raw
samples are millimetres, `toMeters` scales by 1/1000, `fromMeters` is its
inverse (rounded to the nearest raw millimetre value), and the sentinel
raw value 0 is invalid. -/
def DepthTraitsU16 : DepthTraits Nat where
  toMeters r := F32.fin (r / 1000)
  fromMeters m := (round (m * 1000)).toNat
  valid r := decide (r ≠ 0)
  one := 1
  toF r := F32.fin r
  gt a b := decide (b < a)

/-- Modelled from the spec: `depth_traits.hpp` is not under `src/`, so the
32-bit float instantiation follows §4.1 of the spec: samples are already
metres (`toMeters` and `fromMeters` are the identity embedding), and a
sample is invalid exactly when it is NaN (finite values are valid
regardless of sign or magnitude). -/
def DepthTraitsF32 : DepthTraits F32 where
  toMeters := id
  fromMeters m := F32.fin m
  valid x := !x.isNan
  one := F32.fin 1
  toF := id
  gt := F32.gt

/-- The pinhole camera intrinsics read from
`image_geometry::PinholeCameraModel` (`model.cx()`, `model.cy()`,
`model.fx()`, `model.fy()`). -/
structure PinholeModel : Type where
  cx : ℚ
  cy : ℚ
  fx : ℚ
  fy : ℚ

/-- A depth image: dimensions, row step in samples
(`depth_msg->step / sizeof(T)`), and the flat sample buffer
(`reinterpret_cast<const T *>(&depth_msg->data[0])`). -/
structure DepthImage (T : Type) : Type where
  height : Nat
  width : Nat
  rowStep : Nat
  data : Nat → T

/-- The OpenCV matrix type tag tested by `cv_ptr->image.type()`. -/
inductive CvType : Type where
  | c8UC1 : CvType
  | c8UC3 : CvType
  | c8UC4 : CvType
  | cOther : CvType
deriving DecidableEq

/-- The optional colour image behind `cv_ptr`: `rows`, `cols`, matrix
type, and the pixel buffer addressed as (row, column, channel); each
channel is a uchar. -/
structure ColorImage : Type where
  rows : Nat
  cols : Nat
  ctype : CvType
  pixel : Nat → Nat → Nat → Fin 256

/-- The colour-packing block of `convert` (depth_conversions.hpp lines
110–127), translated branch for branch:

    int rgb = 0x000000;
    if (cv_ptr != nullptr) {
      if (type == CV_8UC1)      rgb &= at<uchar>(v,u);
      else if (type == CV_8UC3) rgb = (int)at<Vec3b>(0,0)[0];
      else if (type == CV_8UC3 || type == CV_8UC4) {
        if (rows > v && cols > u) {
          rgb |= at<Vec4b>(v,u)[2] << 16; ... [1] << 8; ... [0]; } }

The third guard's `CV_8UC3` disjunct is kept although it is shadowed by
the second branch and hence unreachable. -/
def computeRgb (cv_ptr : Option ColorImage) (v u : Nat) : Nat :=
  match cv_ptr with
  | none => 0x000000
  | some img =>
    if img.ctype = CvType.c8UC1 then
      0x000000 &&& (img.pixel v u 0).val
    else if img.ctype = CvType.c8UC3 then
      (img.pixel 0 0 0).val
    else if img.ctype = CvType.c8UC3 ∨ img.ctype = CvType.c8UC4 then
      if img.rows > v ∧ img.cols > u then
        (0x000000 ||| ((img.pixel v u 2).val <<< 16))
          ||| ((img.pixel v u 1).val <<< 8) ||| (img.pixel v u 0).val
      else 0x000000
    else 0x000000

/-- The bad point written for a rejected sample:
`*iter_x = *iter_y = *iter_z = *iter_rgb = bad_point` with
`bad_point = std::numeric_limits<float>::quiet_NaN()`. -/
def badPoint : PointRecord :=
  { x := F32.nan, y := F32.nan, z := F32.nan, rgb := RgbBits.qnan }

/-- The "Fill in XYZ / and RGB" tail of the loop body, for the depth value
left in `depth` after the validity/range policy:
`*iter_x = (u - center_x) * depth * constant_x`,
`*iter_y = (v - center_y) * depth * constant_y`,
`*iter_z = toMeters(depth)`, `*iter_rgb` = the packed colour pattern. -/
def mkPoint {T : Type} (tr : DepthTraits T) (cv_ptr : Option ColorImage)
    (centerX centerY constantX constantY : F32) (v u : Nat) (depth : T) :
    PointRecord :=
  { x := (((F32.fin u).sub centerX).mul (tr.toF depth)).mul constantX
    y := (((F32.fin v).sub centerY).mul (tr.toF depth)).mul constantY
    z := tr.toMeters depth
    rgb := RgbBits.pat (computeRgb cv_ptr v u) }

/-- One iteration of the loop body of `convert` at sampled pixel (u, v):
fetch `depth = depth_row[u]`, apply the validity / range-max policy of
lines 83–102, and emit through the cursors exactly once. -/
def processPixel {T : Type} (tr : DepthTraits T) (img : DepthImage T)
    (cv_ptr : Option ColorImage) (centerX centerY constantX constantY : F32)
    (range_max : ℚ) (use_quiet_nan : Bool) (v u : Nat) : PointRecord :=
  let depth := img.data (v * img.rowStep + u)
  if tr.valid depth = false then
    -- Missing points denoted by NaNs
    if range_max ≠ 0 ∧ use_quiet_nan = false then
      mkPoint tr cv_ptr centerX centerY constantX constantY v u
        (tr.fromMeters range_max)
    else badPoint
  else if range_max ≠ 0 then
    if tr.gt depth (tr.fromMeters range_max) then
      if use_quiet_nan then badPoint
      else
        mkPoint tr cv_ptr centerX centerY constantX constantY v u
          (tr.fromMeters range_max)
    else mkPoint tr cv_ptr centerX centerY constantX constantY v u depth
  else mkPoint tr cv_ptr centerX centerY constantX constantY v u depth

/-- The indices visited by `for (i = 0; i < n; i += 2)`: the
`⌈n/2⌉ = (n+1)/2` even numbers below `n`, in increasing order. -/
def strideIdxs (n : Nat) : List Nat :=
  (List.range ((n + 1) / 2)).map (fun i => 2 * i)

/-- The templated `convert` of depth_conversions.hpp: precompute the
principal point, `unit_scaling = toMeters(T(1))` and the two focal
constants, then visit the stride-2 decimated grid in row-major (v, u)
order, writing one record per sampled pixel.  The returned list is the
sequence of records written through the output cursors, in write order. -/
def convert {T : Type} (tr : DepthTraits T) (depth_msg : DepthImage T)
    (model : PinholeModel) (range_max : ℚ) (use_quiet_nan : Bool)
    (cv_ptr : Option ColorImage) : List PointRecord :=
  let center_x : F32 := F32.fin model.cx
  let center_y : F32 := F32.fin model.cy
  let unit_scaling : F32 := tr.toMeters tr.one
  let constant_x : F32 := unit_scaling.div (F32.fin model.fx)
  let constant_y : F32 := unit_scaling.div (F32.fin model.fy)
  (strideIdxs depth_msg.height).flatMap (fun v =>
    (strideIdxs depth_msg.width).map (fun u =>
      processPixel tr depth_msg cv_ptr center_x center_y constant_x
        constant_y range_max use_quiet_nan v u))

/-- The depth payload of an incoming image message, as `depthCb` sees it:
the declared encoding selects the sample type, anything else is
unsupported (`TYPE_16UC1`, `TYPE_32FC1`, or some other encoding string). -/
inductive DepthSamples : Type where
  | u16 (img : DepthImage Nat) : DepthSamples
  | f32 (img : DepthImage F32) : DepthSamples
  | unsupported (encoding : String) : DepthSamples

/-- The node members `depthCb` reads: the latest camera info (none until
`infoCb` has run), the latest colour frame, and the two declared
parameters. -/
structure NodeState : Type where
  g_cam_info : Option PinholeModel
  cv_ptr : Option ColorImage
  range_max : ℚ
  use_quiet_nan : Bool

/-- The `PointCloud2` message `depthCb` builds and publishes: the declared
dimensions set at node.cpp lines 97–98 (`cloud_msg->height = image->height
/ 2`, `cloud_msg->width = image->width / 2`, C++ integer — i.e. floor —
division), and the sequence of records the conversion loop writes through
the output cursors.  The buffer the `PointCloud2Modifier` allocates holds
exactly `height * width` records; any further cursor write lands past its
end. -/
structure CloudMsg : Type where
  height : Nat
  width : Nat
  written : List PointRecord

/-- The number of records the published cloud's buffer is allocated and
declared for: `cloud_msg->height * cloud_msg->width`. -/
def cloudAlloc (c : CloudMsg) : Nat := c.height * c.width

/-- Whether the conversion loop wrote past the end of the allocated cloud
buffer (undefined behaviour in the C++). -/
def cloudOverflows (c : CloudMsg) : Bool :=
  decide (cloudAlloc c < c.written.length)

/-- The records that actually land inside the allocated buffer — what the
published message's data can carry. -/
def publishedPoints (c : CloudMsg) : List PointRecord :=
  c.written.take (cloudAlloc c)

/-- `Depthimage2Pointcloud2::depthCb`: drop the frame when no camera info
has arrived; otherwise allocate the cloud at the floor-divided dimensions
`image->height / 2` × `image->width / 2` (node.cpp lines 97–98), dispatch
`convert<uint16_t>` / `convert<float>` on the declared encoding, and
refuse (publish nothing) on any other encoding.  The returned pair is
(the published cloud, if any; the node state after the callback) —
`depthCb` never writes a member, so the state component is always
returned unchanged. -/
def depthCb (st : NodeState) (image : DepthSamples) :
    Option CloudMsg × NodeState :=
  match st.g_cam_info with
  | none => (none, st)
  | some model =>
    match image with
    | .u16 img =>
      (some (CloudMsg.mk (img.height / 2) (img.width / 2)
        (convert DepthTraitsU16 img model st.range_max st.use_quiet_nan
          st.cv_ptr)), st)
    | .f32 img =>
      (some (CloudMsg.mk (img.height / 2) (img.width / 2)
        (convert DepthTraitsF32 img model st.range_max st.use_quiet_nan
          st.cv_ptr)), st)
    | .unsupported _ => (none, st)

/-! Concrete inputs used to instantiate the theorems below. -/

/-- Identity-like intrinsics: principal point (0,0), focal lengths (1,1). -/
def modelId : PinholeModel := { cx := 0, cy := 0, fx := 1, fy := 1 }

/-- A 3×3 16-bit depth image, every sample 1000 mm. -/
def imgD3x3 : DepthImage Nat := { height := 3, width := 3, rowStep := 3, data := fun _ => 1000 }

/-- A node state with camera info received, no colour frame, range_max
disabled and use_quiet_nan off. -/
def stD3x3 : NodeState :=
  { g_cam_info := some modelId, cv_ptr := none, range_max := 0,
    use_quiet_nan := false }

/-- A 1×1 float depth image whose sample is 3.0 m. -/
def imgF1x1d3 : DepthImage F32 :=
  { height := 1, width := 1, rowStep := 1, data := fun _ => F32.fin 3 }

/-- A 1×1 16-bit depth image whose sample is the invalid sentinel 0. -/
def imgU1x1inv : DepthImage Nat := { height := 1, width := 1, rowStep := 1, data := fun _ => 0 }

/-- A 21×11 float depth image, every sample 5.0 m. -/
def imgF21x11d5 : DepthImage F32 :=
  { height := 21, width := 11, rowStep := 11, data := fun _ => F32.fin 5 }

/-- A 1×1 16-bit depth image whose sample is 1000 mm. -/
def imgU1x1mm : DepthImage Nat := { height := 1, width := 1, rowStep := 1, data := fun _ => 1000 }

/-- A 1×1 three-channel (CV_8UC3) colour image whose pixel is (R,G,B) = (10,20,30). -/
def img3C2 : ColorImage :=
  { rows := 1, cols := 1, ctype := CvType.c8UC3,
    pixel := fun _ _ c => if c = 0 then 10 else if c = 1 then 20 else 30 }

/-- A 1×1 three-channel (CV_8UC3) colour image whose pixel is (7,8,9). -/
def img3C6 : ColorImage :=
  { rows := 1, cols := 1, ctype := CvType.c8UC3,
    pixel := fun _ _ c => if c = 0 then 7 else if c = 1 then 8 else 9 }

/-- A 1×1 four-channel (CV_8UC4) colour image, every channel 7. -/
def img4C6 : ColorImage :=
  { rows := 1, cols := 1, ctype := CvType.c8UC4, pixel := fun _ _ _ => 7 }

/-- A 4×4 grayscale (CV_8UC1) colour image, every sample 200. -/
def imgGray : ColorImage :=
  { rows := 4, cols := 4, ctype := CvType.c8UC1, pixel := fun _ _ _ => 200 }

/-! Helper lemmas about the decimated iteration grid. -/

/-- Length of a row-major grid traversal: `a` rows of `b` entries. -/
theorem gridList_length {α : Type} (a b : Nat) (g : Nat → Nat → α) :
    ((List.range a).flatMap (fun i => (List.range b).map (g i))).length = a * b := by
  induction a with
  | zero => simp
  | succ n ih =>
    rw [List.range_succ, List.flatMap_append, List.length_append, ih,
      List.flatMap_singleton, List.length_map, List.length_range, Nat.succ_mul]

/-- Element of a row-major grid traversal: flat index `i * b + j` holds the
entry of row `i`, column `j`. -/
theorem gridList_getElem {α : Type} {a b i j : Nat} (g : Nat → Nat → α)
    (hi : i < a) (hj : j < b) :
    ((List.range a).flatMap (fun i => (List.range b).map (g i)))[i * b + j]?
      = some (g i j) := by
  induction a with
  | zero => exact absurd hi (Nat.not_lt_zero i)
  | succ n ih =>
    rw [List.range_succ, List.flatMap_append]
    rcases Nat.lt_or_ge i n with h | h
    · rw [List.getElem?_append_left, ih h]
      have hb : i * b + b ≤ n * b := by
        have h1 : (i + 1) * b ≤ n * b := Nat.mul_le_mul_right b h
        simpa [Nat.add_mul] using h1
      rw [gridList_length]
      omega
    · have hin : i = n := by omega
      subst hin
      rw [List.getElem?_append_right (by rw [gridList_length]; omega)]
      rw [gridList_length, Nat.add_sub_cancel_left, List.flatMap_singleton,
        List.getElem?_map, List.getElem?_range hj]
      rfl

/-- `convert` written as a flat row-major grid traversal of the decimated
index pairs, with the precomputed centre/constant values substituted. -/
theorem convert_eq_grid {T : Type} (tr : DepthTraits T) (img : DepthImage T)
    (model : PinholeModel) (range_max : ℚ) (use_quiet_nan : Bool)
    (cv_ptr : Option ColorImage) :
    convert tr img model range_max use_quiet_nan cv_ptr
      = (List.range ((img.height + 1) / 2)).flatMap (fun i =>
          (List.range ((img.width + 1) / 2)).map (fun j =>
            processPixel tr img cv_ptr (F32.fin model.cx) (F32.fin model.cy)
              ((tr.toMeters tr.one).div (F32.fin model.fx))
              ((tr.toMeters tr.one).div (F32.fin model.fy))
              range_max use_quiet_nan (2 * i) (2 * j))) := by
  simp only [convert, strideIdxs, List.flatMap_map, List.map_map,
    Function.comp_def]

/-- Every record the loop body emits is either the NaN-filled bad point or
a `mkPoint` record for some depth value. -/
theorem processPixel_cases {T : Type} (tr : DepthTraits T) (img : DepthImage T)
    (cv_ptr : Option ColorImage) (centerX centerY constantX constantY : F32)
    (range_max : ℚ) (use_quiet_nan : Bool) (v u : Nat) :
    processPixel tr img cv_ptr centerX centerY constantX constantY
        range_max use_quiet_nan v u = badPoint
    ∨ ∃ d, processPixel tr img cv_ptr centerX centerY constantX constantY
        range_max use_quiet_nan v u
        = mkPoint tr cv_ptr centerX centerY constantX constantY v u d := by
  simp only [processPixel]
  split
  · split
    · exact Or.inr ⟨_, rfl⟩
    · exact Or.inl rfl
  · split
    · split
      · split
        · exact Or.inl rfl
        · exact Or.inr ⟨_, rfl⟩
      · exact Or.inr ⟨_, rfl⟩
    · exact Or.inr ⟨_, rfl⟩

/-- C1 (failing evaluation): on a 3×3 depth image the node allocates and
declares the published cloud as `3/2 × 3/2 = 1 × 1` — one point (the
floor divisions of node.cpp lines 97–98) — yet the conversion loop
advances the output cursor `⌈3/2⌉ * ⌈3/2⌉ = 4` times, so the published
cloud's point count is 1, not the claimed `⌈H/2⌉ * ⌈W/2⌉ = 4`, and the
last 3 cursor writes land past the end of the allocated buffer. -/
theorem C1_odd_dims_alloc_failing_eval :
    ((depthCb stD3x3 (DepthSamples.u16 imgD3x3)).1.map cloudAlloc) = some 1
    ∧ ((depthCb stD3x3 (DepthSamples.u16 imgD3x3)).1.map
        (fun c => c.written.length)) = some 4
    ∧ ((imgD3x3.height + 1) / 2) * ((imgD3x3.width + 1) / 2) = 4
    ∧ (1 : Nat) ≠ 4
    ∧ ((depthCb stD3x3 (DepthSamples.u16 imgD3x3)).1.map cloudOverflows)
        = some true
    ∧ ((depthCb stD3x3 (DepthSamples.u16 imgD3x3)).1.map
        (fun c => (publishedPoints c).length)) = some 1 := by
  refine ⟨by decide, by decide, by decide, by decide, by decide, by decide⟩

/-- C3: for a valid depth sample exceeding `fromMeters(range_max)` with
`range_max ≠ 0`: with `use_quiet_nan` the emitted point is the NaN-filled
bad point (x, y, z and the rgb pattern all quiet NaN); without it the
depth is clamped to `fromMeters(range_max)` before back-projection, so the
emitted z is `toMeters(fromMeters(range_max))` — 2.0 m for a 3.0 m float
sample with `range_max = 2.0`, not 3.0 m. -/
theorem C3_range_max_exceeded {T : Type} (tr : DepthTraits T)
    (img : DepthImage T) (cv_ptr : Option ColorImage)
    (centerX centerY constantX constantY : F32) (range_max : ℚ)
    (use_quiet_nan : Bool) (v u : Nat)
    (hvalid : tr.valid (img.data (v * img.rowStep + u)) = true)
    (hrm : range_max ≠ 0)
    (hgt : tr.gt (img.data (v * img.rowStep + u))
      (tr.fromMeters range_max) = true) :
    processPixel tr img cv_ptr centerX centerY constantX constantY
        range_max use_quiet_nan v u
      = (if use_quiet_nan then badPoint
         else mkPoint tr cv_ptr centerX centerY constantX constantY v u
           (tr.fromMeters range_max))
    ∧ (use_quiet_nan = false →
        (processPixel tr img cv_ptr centerX centerY constantX constantY
          range_max use_quiet_nan v u).z
        = tr.toMeters (tr.fromMeters range_max)) := by
  constructor
  · simp [processPixel, hvalid, hrm, hgt]
  · intro h
    subst h
    simp [processPixel, hvalid, hrm, hgt, mkPoint]

/-- Witness for C3: a 3.0 m float sample with range_max = 2.0 and
use_quiet_nan = false is clamped, giving z = 2.0 m. -/
theorem C3_range_max_exceeded_witness :
    (DepthTraitsF32.valid (imgF1x1d3.data (0 * imgF1x1d3.rowStep + 0)) = true
      ∧ (2 : ℚ) ≠ 0
      ∧ DepthTraitsF32.gt (imgF1x1d3.data (0 * imgF1x1d3.rowStep + 0))
          (DepthTraitsF32.fromMeters 2) = true)
    ∧ (processPixel DepthTraitsF32 imgF1x1d3 none (F32.fin 0) (F32.fin 0)
        (F32.fin 1) (F32.fin 1) 2 false 0 0).z = F32.fin 2 :=
  ⟨⟨by decide, by decide, by decide⟩,
    (C3_range_max_exceeded DepthTraitsF32 imgF1x1d3 none (F32.fin 0)
      (F32.fin 0) (F32.fin 1) (F32.fin 1) 2 false 0 0 (by decide) (by decide)
      (by decide)).2 rfl⟩

/-- C4: for an invalid depth sample: if `range_max = 0` or `use_quiet_nan`
is set, the emitted point is the NaN-filled bad point (so with
`range_max = 0` an invalid sample is NaN-filled regardless of
`use_quiet_nan`); if `range_max ≠ 0` and `use_quiet_nan` is not set, the
depth is substituted with `fromMeters(range_max)` and the record is
emitted as for a valid sample of that depth. -/
theorem C4_invalid_sample_policy {T : Type} (tr : DepthTraits T)
    (img : DepthImage T) (cv_ptr : Option ColorImage)
    (centerX centerY constantX constantY : F32) (range_max : ℚ)
    (use_quiet_nan : Bool) (v u : Nat)
    (hinv : tr.valid (img.data (v * img.rowStep + u)) = false) :
    ((range_max = 0 ∨ use_quiet_nan = true) →
      processPixel tr img cv_ptr centerX centerY constantX constantY
        range_max use_quiet_nan v u = badPoint)
    ∧ (range_max ≠ 0 → use_quiet_nan = false →
      processPixel tr img cv_ptr centerX centerY constantX constantY
          range_max use_quiet_nan v u
        = mkPoint tr cv_ptr centerX centerY constantX constantY v u
            (tr.fromMeters range_max)) := by
  constructor
  · rintro (h | h) <;> simp [processPixel, hinv, h]
  · intro h1 h2
    simp [processPixel, hinv, h1, h2]

/-- Witness for C4: the invalid 16-bit sentinel sample 0 with
range_max = 0 is emitted as the NaN-filled bad point even though
use_quiet_nan is false. -/
theorem C4_invalid_sample_policy_witness :
    DepthTraitsU16.valid (imgU1x1inv.data (0 * imgU1x1inv.rowStep + 0)) = false
    ∧ processPixel DepthTraitsU16 imgU1x1inv none (F32.fin 0) (F32.fin 0)
        (F32.fin 1) (F32.fin 1) 0 false 0 0 = badPoint :=
  ⟨by decide,
    (C4_invalid_sample_policy DepthTraitsU16 imgU1x1inv none (F32.fin 0)
      (F32.fin 0) (F32.fin 1) (F32.fin 1) 0 false 0 0 (by decide)).1
      (Or.inl rfl)⟩

/-- C5: for a sampled pixel (u, v) = (2j, 2i) whose used depth — raw,
clamped, or substituted — is `d`, the record emitted at flat output index
`i * ⌈W/2⌉ + j` satisfies `x = (u - principal_point_x) * d * constant_x`,
`y = (v - principal_point_y) * d * constant_y`, `z = toMeters(d)`, where
`constant_x = toMeters(1)/focal_length_x` and
`constant_y = toMeters(1)/focal_length_y` with `toMeters(1)` the
precomputed unit scaling. -/
theorem C5_back_projection {T : Type} (tr : DepthTraits T)
    (img : DepthImage T) (model : PinholeModel) (range_max : ℚ)
    (use_quiet_nan : Bool) (cv_ptr : Option ColorImage) (i j : Nat) (d : T)
    (hi : i < (img.height + 1) / 2) (hj : j < (img.width + 1) / 2)
    (hd : processPixel tr img cv_ptr (F32.fin model.cx) (F32.fin model.cy)
        ((tr.toMeters tr.one).div (F32.fin model.fx))
        ((tr.toMeters tr.one).div (F32.fin model.fy))
        range_max use_quiet_nan (2 * i) (2 * j)
      = mkPoint tr cv_ptr (F32.fin model.cx) (F32.fin model.cy)
          ((tr.toMeters tr.one).div (F32.fin model.fx))
          ((tr.toMeters tr.one).div (F32.fin model.fy)) (2 * i) (2 * j) d) :
    ((convert tr img model range_max use_quiet_nan
        cv_ptr)[i * ((img.width + 1) / 2) + j]?).map PointRecord.x
      = some ((((F32.fin (2 * j)).sub (F32.fin model.cx)).mul
          (tr.toF d)).mul ((tr.toMeters tr.one).div (F32.fin model.fx)))
    ∧ ((convert tr img model range_max use_quiet_nan
        cv_ptr)[i * ((img.width + 1) / 2) + j]?).map PointRecord.y
      = some ((((F32.fin (2 * i)).sub (F32.fin model.cy)).mul
          (tr.toF d)).mul ((tr.toMeters tr.one).div (F32.fin model.fy)))
    ∧ ((convert tr img model range_max use_quiet_nan
        cv_ptr)[i * ((img.width + 1) / 2) + j]?).map PointRecord.z
      = some (tr.toMeters d) := by
  have hidx := gridList_getElem
    (fun i j => processPixel tr img cv_ptr (F32.fin model.cx)
      (F32.fin model.cy) ((tr.toMeters tr.one).div (F32.fin model.fx))
      ((tr.toMeters tr.one).div (F32.fin model.fy))
      range_max use_quiet_nan (2 * i) (2 * j)) hi hj
  rw [convert_eq_grid, hidx]
  simp only [hd, mkPoint, Option.map_some']
  push_cast
  simp

/-- Witness for C5: principal point (0,0), focal lengths (1,1), a
float-encoded depth of 5.0 m at pixel (u, v) = (10, 20) yields the point
(x, y, z) = (50.0, 100.0, 5.0). -/
theorem C5_back_projection_witness :
    ((10 < (imgF21x11d5.height + 1) / 2) ∧ (5 < (imgF21x11d5.width + 1) / 2)
      ∧ processPixel DepthTraitsF32 imgF21x11d5 none (F32.fin modelId.cx)
          (F32.fin modelId.cy)
          ((DepthTraitsF32.toMeters DepthTraitsF32.one).div (F32.fin modelId.fx))
          ((DepthTraitsF32.toMeters DepthTraitsF32.one).div (F32.fin modelId.fy))
          0 false (2 * 10) (2 * 5)
        = mkPoint DepthTraitsF32 none (F32.fin modelId.cx) (F32.fin modelId.cy)
          ((DepthTraitsF32.toMeters DepthTraitsF32.one).div (F32.fin modelId.fx))
          ((DepthTraitsF32.toMeters DepthTraitsF32.one).div (F32.fin modelId.fy))
          (2 * 10) (2 * 5) (F32.fin 5))
    ∧ ((convert DepthTraitsF32 imgF21x11d5 modelId 0 false
          none)[10 * ((imgF21x11d5.width + 1) / 2) + 5]?).map PointRecord.x
        = some (F32.fin 50)
    ∧ ((convert DepthTraitsF32 imgF21x11d5 modelId 0 false
          none)[10 * ((imgF21x11d5.width + 1) / 2) + 5]?).map PointRecord.y
        = some (F32.fin 100)
    ∧ ((convert DepthTraitsF32 imgF21x11d5 modelId 0 false
          none)[10 * ((imgF21x11d5.width + 1) / 2) + 5]?).map PointRecord.z
        = some (F32.fin 5) := by
  have h := C5_back_projection DepthTraitsF32 imgF21x11d5 modelId 0 false
    none 10 5 (F32.fin 5) (by decide) (by decide) rfl
  refine ⟨⟨by decide, by decide, rfl⟩, ?_, ?_, ?_⟩
  · rw [h.1]
    simp only [imgF21x11d5, modelId, DepthTraitsF32, F32.sub, F32.mul, F32.div]
    norm_num
  · rw [h.2.1]
    simp only [imgF21x11d5, modelId, DepthTraitsF32, F32.sub, F32.mul, F32.div]
    norm_num
  · rw [h.2.2]
    simp only [imgF21x11d5, DepthTraitsF32]
    rfl

/-- C7: a depth image whose declared encoding is neither 16-bit unsigned
fixed point nor 32-bit float is refused: `depthCb` publishes nothing for
that frame, leaves the node state untouched, and the next frame is
processed exactly as it would have been had the bad frame never arrived. -/
theorem C7_unsupported_encoding_refused (st : NodeState) (e : String)
    (next : DepthSamples) :
    (depthCb st (DepthSamples.unsupported e)).1 = none
    ∧ (depthCb st (DepthSamples.unsupported e)).2 = st
    ∧ depthCb (depthCb st (DepthSamples.unsupported e)).2 next
        = depthCb st next := by
  cases h : st.g_cam_info <;> simp [depthCb, h]

/-- C9: the conversion is a pure, deterministic function of its inputs:
a callback retains no state (it returns the node state unchanged), so two
calls with bit-identical inputs produce bit-identical outputs. -/
theorem C9_conversion_pure (st : NodeState) (image : DepthSamples) :
    (depthCb st image).2 = st
    ∧ (depthCb (depthCb st image).2 image).1 = (depthCb st image).1 := by
  cases h : st.g_cam_info <;> cases image <;> simp [depthCb, h]

/-- C2 (failing evaluation): for the three-channel (CV_8UC3) colour image
whose pixel is (R,G,B) = (10,20,30), the executed branch sets the packed
colour to channel 0 of pixel (0,0) — the raw value 10 — instead of the
claimed packed integer `(10<<16)|(20<<8)|30 = 660510`, and the emitted
record's rgb field carries the bit pattern of 10. -/
theorem C2_rgb_pack_failing_eval :
    computeRgb (some img3C2) 0 0 = 10
    ∧ ((10 : Nat) <<< 16) ||| ((20 : Nat) <<< 8) ||| 30 = 660510
    ∧ computeRgb (some img3C2) 0 0 ≠ ((10 <<< 16) ||| (20 <<< 8) ||| 30)
    ∧ (mkPoint DepthTraitsU16 (some img3C2) (F32.fin 0) (F32.fin 0)
        (F32.fin 1) (F32.fin 1) 0 0 1000).rgb = RgbBits.pat 10 := by
  exact ⟨by decide, by decide, by decide, by decide⟩

/-- C6 (failing evaluation): sampling coordinate (v, u) = (2, 2) exceeds
the 1×1 colour image extents.  The four-channel branch honours the bounds
check and contributes 0, but for a three-channel image the executed branch
performs no bounds check at all and contributes channel 0 of pixel (0,0)
— the value 7, not the claimed zero/black. -/
theorem C6_oob_color_failing_eval :
    img3C6.rows = 1 ∧ img3C6.cols = 1
    ∧ computeRgb (some img3C6) 2 2 = 7
    ∧ computeRgb (some img3C6) 2 2 ≠ 0
    ∧ computeRgb (some img4C6) 2 2 = 0
    ∧ (mkPoint DepthTraitsU16 (some img3C6) (F32.fin 0) (F32.fin 0)
        (F32.fin 1) (F32.fin 1) 2 2 1000).rgb = RgbBits.pat 7 := by
  exact ⟨rfl, rfl, by decide, by decide, by decide, by decide⟩

/-- C8: for a single-channel (CV_8UC1) colour image the grayscale branch
composes the sampled value with `&=` against an integer initialised to
zero, so the packed colour is always 0 and every non-bad emitted record
carries the all-zero rgb pattern, not the grayscale value. -/
theorem C8_grayscale_always_zero {T : Type} (tr : DepthTraits T)
    (img : ColorImage) (centerX centerY constantX constantY : F32)
    (v u : Nat) (depth : T) (hg : img.ctype = CvType.c8UC1) :
    computeRgb (some img) v u = 0
    ∧ (mkPoint tr (some img) centerX centerY constantX constantY v u
        depth).rgb = RgbBits.pat 0 := by
  have h : computeRgb (some img) v u = 0 := by simp [computeRgb, hg]
  exact ⟨h, by simp [mkPoint, h]⟩

/-- Witness for C8: a grayscale image whose every sample is 200 still
contributes the packed colour 0. -/
theorem C8_grayscale_always_zero_witness :
    imgGray.ctype = CvType.c8UC1
    ∧ (computeRgb (some imgGray) 0 0 = 0
      ∧ (mkPoint DepthTraitsU16 (some imgGray) (F32.fin 0) (F32.fin 0)
          (F32.fin 1) (F32.fin 1) 0 0 1000).rgb = RgbBits.pat 0) :=
  ⟨rfl, C8_grayscale_always_zero DepthTraitsU16 imgGray (F32.fin 0)
    (F32.fin 0) (F32.fin 1) (F32.fin 1) 0 0 1000 rfl⟩

/-- C10: with no colour image supplied, the conversion still completes
with the full decimated record count, and every record that is not the
NaN-filled bad point carries the all-zero rgb bit pattern (the pattern of
+0.0f): the rgb field is never left unwritten. -/
theorem C10_no_color_rgb_zero {T : Type} (tr : DepthTraits T)
    (img : DepthImage T) (model : PinholeModel) (range_max : ℚ)
    (use_quiet_nan : Bool) (p : PointRecord)
    (hp : p ∈ convert tr img model range_max use_quiet_nan none) :
    (convert tr img model range_max use_quiet_nan none).length
        = ((img.height + 1) / 2) * ((img.width + 1) / 2)
    ∧ (p = badPoint ∨ p.rgb = RgbBits.pat 0) := by
  constructor
  · rw [convert_eq_grid]
    exact gridList_length _ _ _
  · rw [convert_eq_grid] at hp
    rcases List.mem_flatMap.mp hp with ⟨i, hi, hmem⟩
    rcases List.mem_map.mp hmem with ⟨j, hj, hpe⟩
    rcases processPixel_cases tr img none (F32.fin model.cx) (F32.fin model.cy)
      ((tr.toMeters tr.one).div (F32.fin model.fx))
      ((tr.toMeters tr.one).div (F32.fin model.fy))
      range_max use_quiet_nan (2 * i) (2 * j) with h | ⟨d, h⟩
    · exact Or.inl (hpe ▸ h ▸ rfl)
    · refine Or.inr ?_
      rw [← hpe, h]
      simp [mkPoint, computeRgb]

/-- Witness for C10: the single record of a 1×1 colourless conversion is
in the output, the output has the full decimated count, and the record is
either the bad point or carries the all-zero rgb pattern. -/
theorem C10_no_color_rgb_zero_witness :
    (processPixel DepthTraitsU16 imgU1x1mm none (F32.fin modelId.cx)
        (F32.fin modelId.cy)
        ((DepthTraitsU16.toMeters DepthTraitsU16.one).div (F32.fin modelId.fx))
        ((DepthTraitsU16.toMeters DepthTraitsU16.one).div (F32.fin modelId.fy))
        0 false 0 0
      ∈ convert DepthTraitsU16 imgU1x1mm modelId 0 false none)
    ∧ ((convert DepthTraitsU16 imgU1x1mm modelId 0 false none).length
        = ((imgU1x1mm.height + 1) / 2) * ((imgU1x1mm.width + 1) / 2)
      ∧ (processPixel DepthTraitsU16 imgU1x1mm none (F32.fin modelId.cx)
          (F32.fin modelId.cy)
          ((DepthTraitsU16.toMeters DepthTraitsU16.one).div (F32.fin modelId.fx))
          ((DepthTraitsU16.toMeters DepthTraitsU16.one).div (F32.fin modelId.fy))
          0 false 0 0 = badPoint
        ∨ (processPixel DepthTraitsU16 imgU1x1mm none (F32.fin modelId.cx)
            (F32.fin modelId.cy)
            ((DepthTraitsU16.toMeters DepthTraitsU16.one).div (F32.fin modelId.fx))
            ((DepthTraitsU16.toMeters DepthTraitsU16.one).div (F32.fin modelId.fy))
            0 false 0 0).rgb = RgbBits.pat 0)) := by
  have hmem : processPixel DepthTraitsU16 imgU1x1mm none (F32.fin modelId.cx)
      (F32.fin modelId.cy)
      ((DepthTraitsU16.toMeters DepthTraitsU16.one).div (F32.fin modelId.fx))
      ((DepthTraitsU16.toMeters DepthTraitsU16.one).div (F32.fin modelId.fy))
      0 false 0 0
      ∈ convert DepthTraitsU16 imgU1x1mm modelId 0 false none := by
    show processPixel DepthTraitsU16 imgU1x1mm none (F32.fin modelId.cx)
      (F32.fin modelId.cy)
      ((DepthTraitsU16.toMeters DepthTraitsU16.one).div (F32.fin modelId.fx))
      ((DepthTraitsU16.toMeters DepthTraitsU16.one).div (F32.fin modelId.fy))
      0 false 0 0 ∈ [processPixel DepthTraitsU16 imgU1x1mm none
        (F32.fin modelId.cx) (F32.fin modelId.cy)
        ((DepthTraitsU16.toMeters DepthTraitsU16.one).div (F32.fin modelId.fx))
        ((DepthTraitsU16.toMeters DepthTraitsU16.one).div (F32.fin modelId.fy))
        0 false 0 0]
    exact List.mem_singleton.mpr rfl
  exact ⟨hmem, C10_no_color_rgb_zero DepthTraitsU16 imgU1x1mm modelId 0 false
    _ hmem⟩

end depthimage_to_pointcloud2
